import Mathlib

/-!
Verification of the audio-tag-editor format-sniffing and duration-estimation
core (package `internal/service/audio`).  The Go source is shallowly embedded:
file contents are lists of naturals (bytes), `os.File.ReadAt` becomes a pure
window read that also reports whether the read was short (Go returns `io.EOF`
for a short read), `float64` durations become exact rationals, and loops
become structural recursions (the one loop with no structural measure, the
MP3 frame-sampling loop, is indexed by explicit fuel so that non-termination
is expressible).  Multi-byte loads written in Go with shift-or on distinct
bytes are written here as sums of scaled bytes, which coincide for byte
inputs; the one place where Go's operands can overlap (the FLAC
bits-per-sample field) keeps `Nat.lor`.
-/

namespace AudioTag

/-- File contents: a list of byte values (real files have entries < 256). -/
abbrev Bytes := List Nat

/-- Model of `os.File.ReadAt(buf[:len], off)`: the bytes actually read and a
flag saying the read was short (Go then returns the non-nil error `io.EOF`;
a full read returns a nil error). -/
def readAt (c : Bytes) (off len : Nat) : Bytes × Bool :=
  let r := (c.drop off).take len
  (r, decide (r.length < len))

theorem readAt_def (c : Bytes) (off len : Nat) :
    readAt c off len =
      ((c.drop off).take len, decide (((c.drop off).take len).length < len)) := rfl

/-! ## MP3 frame-header field decoding (mp3Handler, audio.go)

Go bit operations on header bytes are translated to division/modulus:
`(b >> k) & m` becomes `b / 2^k % (m+1)`, and `b & 0xE0 == 0xE0` becomes
`b / 32 % 8 = 7`. -/

/-- `(header[1] >> 3) & 0x03` — the MPEG version field. -/
def mpegVersion (header : Bytes) : Nat := header.getD 1 0 / 8 % 4

/-- `(header[1] >> 1) & 0x03` — the layer field. -/
def mpegLayer (header : Bytes) : Nat := header.getD 1 0 / 2 % 4

/-- `(header[2] >> 4) & 0x0F` — the bitrate index field. -/
def bitrateIndex (header : Bytes) : Nat := header.getD 2 0 / 16 % 16

/-- `(header[2] >> 2) & 0x03` — the sample-rate index field. -/
def sampleRateIndex (header : Bytes) : Nat := header.getD 2 0 / 4 % 4

/-- `(header[2] >> 1) & 0x01` — the padding bit. -/
def mpegPadding (header : Bytes) : Nat := header.getD 2 0 / 2 % 2

/-- The 15-row bitrate table of `mp3Handler.getBitrate` (kbps). -/
def bitrateTable : List (List Nat) :=
  [[0, 0, 0, 0, 0],
   [32, 32, 32, 32, 8],
   [64, 48, 40, 48, 16],
   [96, 56, 48, 56, 24],
   [128, 64, 56, 64, 32],
   [160, 80, 64, 80, 40],
   [192, 96, 80, 96, 48],
   [224, 112, 96, 112, 56],
   [256, 128, 112, 128, 64],
   [288, 160, 128, 160, 80],
   [320, 192, 160, 192, 96],
   [352, 224, 192, 224, 112],
   [384, 256, 224, 256, 128],
   [416, 320, 256, 320, 144],
   [448, 384, 320, 384, 160]]

/-- Core of `mp3Handler.getBitrate` on the already-decoded fields: reject
version 0, any layer other than 1, and the reserved bitrate indices 0 and 15;
only version 3 (MPEG-1) reads the table (column 0), after an explicit
`idx < len(bitrateTable)` bounds check; everything else yields 0. -/
def bitrateLookup (version layer idx : Nat) : Nat :=
  if version = 0 ∨ layer ≠ 1 ∨ idx = 0 ∨ idx = 15 then 0
  else if version = 3 then
    if idx < bitrateTable.length then ((bitrateTable.getD idx []).getD 0 0) else 0
  else 0

/-- `mp3Handler.getBitrate(header)`. -/
def getBitrate (header : Bytes) : Nat :=
  bitrateLookup (mpegVersion header) (mpegLayer header) (bitrateIndex header)

/-- The 4-row sample-rate table of `mp3Handler.getSampleRate` (Hz). -/
def sampleRateTable : List (List Nat) :=
  [[44100, 22050, 11025],
   [48000, 24000, 12000],
   [32000, 16000, 8000],
   [0, 0, 0]]

/-- Core of `mp3Handler.getSampleRate` on the decoded fields: version 3 reads
column 0, version 2 reads column 1, each behind an explicit
`idx < len(sampleRateTable)` bounds check; all other versions yield 0. -/
def sampleRateLookup (version idx : Nat) : Nat :=
  if version = 3 then
    if idx < sampleRateTable.length then ((sampleRateTable.getD idx []).getD 0 0) else 0
  else if version = 2 then
    if idx < sampleRateTable.length then ((sampleRateTable.getD idx []).getD 1 0) else 0
  else 0

/-- `mp3Handler.getSampleRate(header)`. -/
def getSampleRate (header : Bytes) : Nat :=
  sampleRateLookup (mpegVersion header) (sampleRateIndex header)

/-- The decoded fields are small: version and layer are below 4, the bitrate
index below 16, the sample-rate index below 4, all by construction. -/
theorem mpegFields_lt (header : Bytes) :
    mpegVersion header < 4 ∧ mpegLayer header < 4 ∧
    bitrateIndex header < 16 ∧ sampleRateIndex header < 4 := by
  refine ⟨?_, ?_, ?_, ?_⟩ <;>
    first
      | exact Nat.mod_lt _ (by norm_num)

/-- Exhaustive check of the two lookup cores over all in-range field values. -/
theorem lookup_characterization :
    ∀ (v l : Fin 4) (i : Fin 16) (s : Fin 4),
      (bitrateLookup v.val l.val i.val ≠ 0 ↔
        (v.val = 3 ∧ l.val = 1 ∧ 1 ≤ i.val ∧ i.val ≤ 14)) ∧
      (sampleRateLookup v.val s.val ≠ 0 ↔
        ((v.val = 3 ∨ v.val = 2) ∧ s.val ≠ 3)) := by
  decide

/-- C10: for every 4-byte header the MP3 table lookups are total — both are
defined for every input, the masked indices are bounds-checked against the
15-row and 4-row tables — and they are nonzero exactly on the populated
families: `getBitrate` is nonzero precisely when version = 3, layer = 1 and
the bitrate index lies in 1..14, and `getSampleRate` is nonzero precisely
when the version is 3 or 2 and the sample-rate index is not the reserved
row 3. -/
theorem c10_table_lookups_total (header : Bytes) :
    (getBitrate header ≠ 0 ↔
      (mpegVersion header = 3 ∧ mpegLayer header = 1 ∧
        1 ≤ bitrateIndex header ∧ bitrateIndex header ≤ 14)) ∧
    (getSampleRate header ≠ 0 ↔
      ((mpegVersion header = 3 ∨ mpegVersion header = 2) ∧
        sampleRateIndex header ≠ 3)) := by
  obtain ⟨hv, hl, hi, hs⟩ := mpegFields_lt header
  have h := lookup_characterization ⟨mpegVersion header, hv⟩ ⟨mpegLayer header, hl⟩
    ⟨bitrateIndex header, hi⟩ ⟨sampleRateIndex header, hs⟩
  exact h

/-! ## getD helper lemmas -/

theorem getD_drop (l : Bytes) (i j : Nat) : (l.drop i).getD j 0 = l.getD (i + j) 0 := by
  simp [List.getD_eq_getElem?_getD, List.getElem?_drop]

theorem getD_take_of_lt (l : Bytes) {n i : Nat} (h : i < n) :
    (l.take n).getD i 0 = l.getD i 0 := by
  simp [List.getD_eq_getElem?_getD, List.getElem?_take, h]

/-! ## VBR side-header scan (mp3Handler.extractDurationFromXing)

The Go loop walks `i` from 0 while `i < len(buffer)-12`; at each index it
first checks for `Xing`/`Info` (frame count in the 4 bytes 8 past the match
position, big-endian) and then for `VBRI` (frame count 14 past), returning
on the first index where a token matches with a positive frame count and a
resolvable sample rate.  Nested Go conditionals with no intervening effects
are written as conjunctions; the scan recurses on the tail of the buffer.
A `VBRI` match at an index `i` with `i+17 ≥ len(buffer)` — equivalently, a
suffix shorter than 18 bytes — makes Go index past the buffer end and panic
with index out of range, so the scan's outcome type carries an explicit
panic alternative (`GoResult.panicked`); the `Xing`/`Info` frame read at
`i+8..i+11` is always in range under the loop guard. -/

instance {ε α : Type} [DecidableEq ε] [DecidableEq α] : DecidableEq (Except ε α) :=
  fun x y =>
    match x, y with
    | Except.ok a, Except.ok b =>
      if h : a = b then isTrue (h ▸ rfl) else isFalse (fun hh => h (Except.ok.inj hh))
    | Except.error a, Except.error b =>
      if h : a = b then isTrue (h ▸ rfl) else isFalse (fun hh => h (Except.error.inj hh))
    | Except.ok _, Except.error _ => isFalse (fun h => Except.noConfusion h)
    | Except.error _, Except.ok _ => isFalse (fun h => Except.noConfusion h)

/-- The outcome of a Go computation that can panic: a normal return or a
runtime panic (index out of range). -/
inductive GoResult (α : Type) where
  | ret (a : α)
  | panicked
  deriving DecidableEq

/-- Big-endian 32-bit load of four bytes. -/
def be32 (b0 b1 b2 b3 : Nat) : Nat := b0 * 16777216 + b1 * 65536 + b2 * 256 + b3

/-- The ASCII bytes of the token `Xing`. -/
def xingToken : Bytes := [88, 105, 110, 103]

/-- The ASCII bytes of the token `Info`. -/
def infoToken : Bytes := [73, 110, 102, 111]

/-- The ASCII bytes of the token `VBRI`. -/
def vbriToken : Bytes := [86, 66, 82, 73]

/-- The 4-byte window of `buffer` at index `i` equals the token `tok`. -/
def tokenAt (buffer tok : Bytes) (i : Nat) : Prop := (buffer.drop i).take 4 = tok

instance (buffer tok : Bytes) (i : Nat) : Decidable (tokenAt buffer tok i) := by
  unfold tokenAt; infer_instance

/-- The `Xing`/`Info` frame count at index `i`: the big-endian 32-bit value of
`buffer[i+8 .. i+11]`. -/
def xingFrames (buffer : Bytes) (i : Nat) : Nat :=
  be32 (buffer.getD (i + 8) 0) (buffer.getD (i + 9) 0)
    (buffer.getD (i + 10) 0) (buffer.getD (i + 11) 0)

/-- The `VBRI` frame count at index `i`: the big-endian 32-bit value of
`buffer[i+14 .. i+17]`.  The scan applies this decoder only when
`i + 17 < buffer.length` (all four reads in range); a `VBRI` match closer to
the buffer end panics instead. -/
def vbriFrames (buffer : Bytes) (i : Nat) : Nat :=
  be32 (buffer.getD (i + 14) 0) (buffer.getD (i + 15) 0)
    (buffer.getD (i + 16) 0) (buffer.getD (i + 17) 0)

/-- `frames * samplesPerFrame / sampleRate`, with `samplesPerFrame` 1152 when
the leading header's version field is 3 and 576 otherwise. -/
def vbrDuration (header : Bytes) (frames : Nat) : ℚ :=
  (frames : ℚ) * (if mpegVersion header = 3 then (1152 : ℚ) else 576) /
    (getSampleRate header : ℚ)

/-- Index `i` is one at which the Go loop would return (assuming, as the loop
does, a token match at `i` together with a positive frame count; the shared
sample-rate condition is handled separately since it does not depend on `i`). -/
def vbrReturnsAt (buffer : Bytes) (i : Nat) : Prop :=
  ((tokenAt buffer xingToken i ∨ tokenAt buffer infoToken i) ∧ 0 < xingFrames buffer i) ∨
    (tokenAt buffer vbriToken i ∧ 0 < vbriFrames buffer i)

instance (buffer : Bytes) (i : Nat) : Decidable (vbrReturnsAt buffer i) := by
  unfold vbrReturnsAt; infer_instance

/-- The scan inside `mp3Handler.extractDurationFromXing`, recursing on the
buffer suffix; `header` is the fixed 4-byte leading frame header.  A `VBRI`
match on a suffix shorter than 18 bytes reads past the buffer end in Go and
panics. -/
def xingScan (header : Bytes) : Bytes → GoResult (Option ℚ)
  | [] => GoResult.ret none
  | b :: rest =>
    if (b :: rest).length ≤ 12 then GoResult.ret none
    else if ((b :: rest).take 4 = xingToken ∨ (b :: rest).take 4 = infoToken) ∧
        0 < xingFrames (b :: rest) 0 ∧ 0 < getSampleRate header then
      GoResult.ret (some (vbrDuration header (xingFrames (b :: rest) 0)))
    else if (b :: rest).take 4 = vbriToken then
      if (b :: rest).length < 18 then GoResult.panicked
      else if 0 < vbriFrames (b :: rest) 0 ∧ 0 < getSampleRate header then
        GoResult.ret (some (vbrDuration header (vbriFrames (b :: rest) 0)))
      else xingScan header rest
    else xingScan header rest

/-- MP3 estimator errors, one per `return`-with-error site. -/
inductive Mp3Err where
  | tooSmall | readHeader | notMp3 | noXing | noSampleRate | framesParse | noBitrate
  | noDuration
  deriving DecidableEq

/-- `mp3Handler.extractDurationFromXing(buffer)`; a panic in the scan
propagates. -/
def extractDurationFromXing (buffer : Bytes) : GoResult (Except Mp3Err ℚ) :=
  match xingScan (buffer.take 4) buffer with
  | GoResult.ret (some d) => GoResult.ret (Except.ok d)
  | GoResult.ret none => GoResult.ret (Except.error Mp3Err.noXing)
  | GoResult.panicked => GoResult.panicked

theorem tokenAt_cons (b : Nat) (l tok : Bytes) (i : Nat) :
    tokenAt (b :: l) tok (i + 1) ↔ tokenAt l tok i := by
  simp [tokenAt]

theorem getD_cons_add_one (b : Nat) (l : Bytes) (i k : Nat) :
    (b :: l).getD (i + 1 + k) 0 = l.getD (i + k) 0 := by
  rw [show i + 1 + k = (i + k) + 1 by omega]
  rfl

theorem xingFrames_cons (b : Nat) (l : Bytes) (i : Nat) :
    xingFrames (b :: l) (i + 1) = xingFrames l i := by
  simp only [xingFrames, getD_cons_add_one]

theorem vbriFrames_cons (b : Nat) (l : Bytes) (i : Nat) :
    vbriFrames (b :: l) (i + 1) = vbriFrames l i := by
  simp only [vbriFrames, getD_cons_add_one]

theorem vbrReturnsAt_cons (b : Nat) (l : Bytes) (i : Nat) :
    vbrReturnsAt (b :: l) (i + 1) ↔ vbrReturnsAt l i := by
  simp only [vbrReturnsAt, tokenAt_cons, xingFrames_cons, vbriFrames_cons]

theorem tokenAt_zero (l tok : Bytes) : tokenAt l tok 0 ↔ l.take 4 = tok := by
  simp [tokenAt]

/-- The scan returns the `Xing`/`Info` duration of the first index at which
the loop fires, provided the leading header's sample rate is resolvable and
no `VBRI` match before that index sits close enough to the buffer end to
read out of range (such a match panics instead). -/
theorem xingScan_first_hit : ∀ (i : Nat) (hdr l : Bytes),
    12 < l.length - i →
    (tokenAt l xingToken i ∨ tokenAt l infoToken i) →
    0 < xingFrames l i →
    0 < getSampleRate hdr →
    (∀ j < i, ¬ vbrReturnsAt l j) →
    (∀ j < i, ¬ (tokenAt l vbriToken j ∧ l.length < j + 18)) →
    xingScan hdr l = GoResult.ret (some (vbrDuration hdr (xingFrames l i)))
  | i, hdr, [], hlen, _, _, _, _, _ => by simp at hlen
  | 0, hdr, b :: rest, hlen, htok, hframes, hsr, _, _ => by
    rw [xingScan]
    rw [if_neg (by omega)]
    rw [if_pos ⟨by simpa [tokenAt] using htok, hframes, hsr⟩]
  | i + 1, hdr, b :: rest, hlen, htok, hframes, hsr, hfirst, hnopanic => by
    have h0 : ¬ vbrReturnsAt (b :: rest) 0 := hfirst 0 (by omega)
    rw [xingScan]
    rw [if_neg (by simp at hlen ⊢; omega)]
    rw [if_neg ?sideX]
    case sideX =>
      intro ⟨ht, hf, _⟩
      exact h0 (Or.inl ⟨by simpa [tokenAt] using ht, hf⟩)
    rw [xingFrames_cons] at hframes ⊢
    have IH : xingScan hdr rest = GoResult.ret (some (vbrDuration hdr (xingFrames rest i))) :=
      xingScan_first_hit i hdr rest
        (by simp at hlen ⊢; omega)
        (by rwa [← tokenAt_cons b rest xingToken i, ← tokenAt_cons b rest infoToken i])
        hframes hsr
        (fun j hj => by
          have := hfirst (j + 1) (by omega)
          rwa [vbrReturnsAt_cons] at this)
        (fun j hj => by
          have hshift := hnopanic (j + 1) (by omega)
          intro ⟨ht, hlt⟩
          exact hshift ⟨(tokenAt_cons b rest vbriToken j).mpr ht, by
            rw [List.length_cons]
            omega⟩)
    by_cases hv : (b :: rest).take 4 = vbriToken
    · rw [if_pos hv]
      rw [if_neg ?noPanicHere]
      case noPanicHere =>
        have hp := hnopanic 0 (by omega)
        intro hlt
        exact hp ⟨(tokenAt_zero _ _).mpr hv, by omega⟩
      rw [if_neg ?sideV]
      case sideV =>
        intro ⟨hf, _⟩
        exact h0 (Or.inr ⟨(tokenAt_zero _ _).mpr hv, hf⟩)
      exact IH
    · rw [if_neg hv]
      exact IH

/-- C5 as amended: whenever the scanned buffer carries an `Xing` or `Info`
token at the first index `i` at which the VBR loop fires, with a positive
big-endian frame count 8 bytes past the token and a resolvable sample rate
in the leading frame header — and no `VBRI` token match before `i` lies
within the last 17 bytes of the buffer (such a match makes the Go loop index
past the buffer and panic; see the counterexample) — the VBR strategy
returns `frames * samplesPerFrame / sampleRate`, with `samplesPerFrame` 1152
when the header's version field equals 3 and 576 otherwise. -/
theorem c5_xing_duration (buffer : Bytes) (i : Nat)
    (hlen : 12 < buffer.length - i)
    (htok : tokenAt buffer xingToken i ∨ tokenAt buffer infoToken i)
    (hframes : 0 < xingFrames buffer i)
    (hsr : 0 < getSampleRate (buffer.take 4))
    (hfirst : ∀ j < i, ¬ vbrReturnsAt buffer j)
    (hnopanic : ∀ j < i, ¬ (tokenAt buffer vbriToken j ∧ buffer.length < j + 18)) :
    extractDurationFromXing buffer =
      GoResult.ret (Except.ok ((xingFrames buffer i : ℚ) *
        (if mpegVersion (buffer.take 4) = 3 then (1152 : ℚ) else 576) /
        (getSampleRate (buffer.take 4) : ℚ))) := by
  unfold extractDurationFromXing
  rw [xingScan_first_hit i (buffer.take 4) buffer hlen htok hframes hsr hfirst hnopanic]
  rfl

/-- A concrete buffer: a valid MPEG-1 Layer III leading header (44100 Hz),
an `Xing` token at index 4 and a big-endian frame count of 1000. -/
def c5Buffer : Bytes := [255, 251, 0, 0, 88, 105, 110, 103, 0, 0, 0, 0, 0, 0, 3, 232, 0]

theorem c5_witness :
    (12 < c5Buffer.length - 4 ∧ tokenAt c5Buffer xingToken 4 ∧
      0 < xingFrames c5Buffer 4 ∧ 0 < getSampleRate (c5Buffer.take 4) ∧
      (∀ j < 4, ¬ vbrReturnsAt c5Buffer j) ∧
      (∀ j < 4, ¬ (tokenAt c5Buffer vbriToken j ∧ c5Buffer.length < j + 18))) ∧
    extractDurationFromXing c5Buffer = GoResult.ret (Except.ok (1280 / 49 : ℚ)) :=
  ⟨⟨by decide, by decide, by decide, by decide, by decide, by decide⟩, by
    rw [c5_xing_duration c5Buffer 4 (by decide) (Or.inl (by decide)) (by decide)
      (by decide) (by decide) (by decide)]
    have h1 : xingFrames c5Buffer 4 = 1000 := by decide
    have h2 : mpegVersion (c5Buffer.take 4) = 3 := by decide
    have h3 : getSampleRate (c5Buffer.take 4) = 44100 := by decide
    rw [h1, h2, h3]
    norm_num⟩

/-- A 30-byte buffer refuting C5 as originally stated: a valid MPEG-1
Layer III leading header (44100 Hz), a `VBRI` token at index 13 — whose
frame-count read at indices 27..30 crosses the buffer end — and an `Xing`
token at index 17 with a positive frame count. -/
def c5Cex : Bytes :=
  [255, 251, 0, 0, 0, 0, 0, 0, 0, 0, 0, 0, 0,
   86, 66, 82, 73, 88, 105, 110, 103, 0, 0, 0, 0, 0, 1, 0, 0, 0]

/-- C5 as originally stated fails on the code: `c5Cex`'s scanned region
carries an `Xing` token (index 17, still inside the loop range) with a
positive frame count and a resolvable sample rate, yet the VBR strategy
does not return the claimed duration — the `VBRI` match at index 13 makes
the Go loop read `buffer[30]` of a 30-byte buffer and panic with index out
of range before the `Xing` token is ever reached. -/
theorem c5_truncated_vbri_read_panics :
    tokenAt c5Cex xingToken 17 ∧ 0 < xingFrames c5Cex 17 ∧
    0 < getSampleRate (c5Cex.take 4) ∧ 12 < c5Cex.length - 17 ∧
    extractDurationFromXing c5Cex = GoResult.panicked := by
  refine ⟨by decide, by decide, by decide, by decide, by decide⟩

/-! ## Frame-count sampling (mp3Handler.extractDurationFromFrames)

The outer Go loop advances `pos` only when the current 4096-byte chunk
contains a sync pattern whose frame size lies in (0, 1441); it has no other
progress measure, so it is embedded with explicit fuel: a `none` result means
the loop has not produced an answer within `fuel` iterations, and a result of
`none` for every fuel witnesses non-termination. -/

/-- `mp3Handler.getFrameSize(header)`. -/
def getFrameSize (header : Bytes) : Nat :=
  if getBitrate header = 0 ∨ getSampleRate header = 0 then 0
  else
    (if mpegVersion header = 3 then 1152 else 576) / 8 * getBitrate header * 1000 /
      getSampleRate header + mpegPadding header

/-- The inner chunk scan: the first index `i` (with `i < n - 4`) whose byte
starts a sync pattern (`0xFF` then top three bits of the next byte set) with
a frame size in (0, 1441), together with that frame size. -/
def scanChunk : Bytes → Nat → Option (Nat × Nat)
  | b0 :: b1 :: b2 :: b3 :: b4 :: rest, i =>
    if b0 = 255 ∧ b1 / 32 % 8 = 7 then
      if 0 < getFrameSize [b0, b1, b2, b3] ∧ getFrameSize [b0, b1, b2, b3] < 1441 then
        some (i, getFrameSize [b0, b1, b2, b3])
      else scanChunk (b1 :: b2 :: b3 :: b4 :: rest) (i + 1)
    else scanChunk (b1 :: b2 :: b3 :: b4 :: rest) (i + 1)
  | _, _ => none

/-- The outer loop of `extractDurationFromFrames`: while `pos < maxPos - 4`,
read a chunk of `min 4096 (maxPos - pos)` bytes at `pos`, look for the next
frame, and advance `pos` past it; the loop exits only via `break` (chunk
empty, or `pos` at/after `maxPos - 4` after an advance) or the guard.
Returns the final `(pos, frameCount)`, or `none` when fuel runs out. -/
def framesLoop (c : Bytes) (maxPos : Nat) : Nat → Nat → Nat → Option (Nat × Nat)
  | 0, _, _ => none
  | fuel + 1, pos, frameCount =>
    if pos < maxPos - 4 then
      if ((c.drop pos).take (min 4096 (maxPos - pos))).length = 0 then some (pos, frameCount)
      else
        match scanChunk ((c.drop pos).take (min 4096 (maxPos - pos))) 0 with
        | some (i, frameSize) =>
          if maxPos - 4 ≤ pos + i + frameSize then some (pos + i + frameSize, frameCount + 1)
          else framesLoop c maxPos fuel (pos + i + frameSize) (frameCount + 1)
        | none => framesLoop c maxPos fuel pos frameCount
    else some (pos, frameCount)

/-- `mp3Handler.extractDurationFromFrames(file, buffer)`. -/
def extractDurationFromFrames (fuel : Nat) (c buffer : Bytes) : Option (Except Mp3Err ℚ) :=
  if getSampleRate (buffer.take 4) = 0 then some (Except.error Mp3Err.noSampleRate)
  else
    match framesLoop c (min c.length (512 * 1024)) fuel 0 0 with
    | none => none
    | some (pos, frameCount) =>
      if 10 < frameCount then
        if 0 < ((c.length : ℚ) / ((pos : ℚ) / (frameCount : ℚ))) *
            (if mpegVersion (buffer.take 4) = 3 then (1152 : ℚ) else 576) /
            (getSampleRate (buffer.take 4) : ℚ) then
          some (Except.ok (((c.length : ℚ) / ((pos : ℚ) / (frameCount : ℚ))) *
            (if mpegVersion (buffer.take 4) = 3 then (1152 : ℚ) else 576) /
            (getSampleRate (buffer.take 4) : ℚ)))
        else some (Except.error Mp3Err.framesParse)
      else some (Except.error Mp3Err.framesParse)

/-- The strategy pipeline of `mp3Handler.ExtractDuration` after the header
window has been read: sync check, then Xing/VBRI (whose panic propagates),
then frame sampling, then the constant-bitrate fallback. -/
def mp3Pipeline (fuel : Nat) (c buffer : Bytes) : Option (GoResult (Except Mp3Err ℚ)) :=
  if ¬(buffer.getD 0 0 = 255 ∧ buffer.getD 1 0 / 32 % 8 = 7) then
    some (GoResult.ret (Except.error Mp3Err.notMp3))
  else
    match extractDurationFromXing buffer with
    | GoResult.panicked => some GoResult.panicked
    | GoResult.ret (Except.ok d) =>
      if 0 < d then some (GoResult.ret (Except.ok d)) else mp3AfterXing fuel c buffer
    | GoResult.ret (Except.error _) => mp3AfterXing fuel c buffer
where
  mp3AfterXing (fuel : Nat) (c buffer : Bytes) : Option (GoResult (Except Mp3Err ℚ)) :=
    match extractDurationFromFrames fuel c buffer with
    | none => none
    | some (Except.ok d) =>
      if 0 < d then some (GoResult.ret (Except.ok d)) else mp3Cbr c buffer
    | some (Except.error _) => mp3Cbr c buffer
  mp3Cbr (c buffer : Bytes) : Option (GoResult (Except Mp3Err ℚ)) :=
    if getBitrate (buffer.take 4) = 0 ∨ getSampleRate (buffer.take 4) = 0 then
      some (GoResult.ret (Except.error Mp3Err.noBitrate))
    else if 0 < ((c.length * 8 : ℕ) : ℚ) / ((getBitrate (buffer.take 4) * 1000 : ℕ) : ℚ) then
      some (GoResult.ret (Except.ok (((c.length * 8 : ℕ) : ℚ) /
        ((getBitrate (buffer.take 4) * 1000 : ℕ) : ℚ))))
    else some (GoResult.ret (Except.error Mp3Err.noDuration))

/-- `mp3Handler.ExtractDuration(filePath)`: size check, 8KB header-window
read (a short read is Go's `io.EOF`, treated as fatal by the handler), then
the strategy pipeline.  The outer `Option` marks divergence of the frame
scan; `GoResult.panicked` marks a Go index-out-of-range panic. -/
def mp3ExtractDuration (fuel : Nat) (c : Bytes) : Option (GoResult (Except Mp3Err ℚ)) :=
  if c.length < 4 then some (GoResult.ret (Except.error Mp3Err.tooSmall))
  else if (readAt c 0 8192).2 then some (GoResult.ret (Except.error Mp3Err.readHeader))
  else mp3Pipeline fuel c (readAt c 0 8192).1

/-- An input on which the frame-sampling loop never advances: a valid sync
pattern whose bitrate index is 0 (frame size 0), followed by zero bytes, in a
file of exactly the 8KB header-window size. -/
def c2Input : Bytes := [255, 251, 0, 0] ++ List.replicate 8188 0

theorem scanChunk_no_sync : ∀ (l : Bytes) (i : Nat), (∀ b ∈ l, b ≠ 255) →
    scanChunk l i = none
  | [], _, _ => rfl
  | [_], _, _ => rfl
  | [_, _], _, _ => rfl
  | [_, _, _], _, _ => rfl
  | [_, _, _, _], _, _ => rfl
  | a :: b :: c :: d :: e :: rest, i, h => by
    rw [scanChunk]
    rw [if_neg (by
      have := h a (by simp)
      tauto)]
    exact scanChunk_no_sync (b :: c :: d :: e :: rest) (i + 1)
      (fun x hx => h x (by simp at hx ⊢; tauto))

theorem c2_chunk_eq :
    (c2Input.drop 0).take (min 4096 (8192 - 0)) =
      255 :: 251 :: 0 :: 0 :: 0 :: List.replicate 4091 0 := by
  show c2Input.take 4096 = _
  rw [c2Input, List.take_append_eq_append_take, List.take_replicate]
  rw [List.take_of_length_le (by decide)]
  rw [show min (4096 - ([255, 251, 0, 0] : Bytes).length) 8188 = 4091 + 1 from rfl]
  rw [List.replicate_succ]
  rfl

theorem c2_scanChunk :
    scanChunk (255 :: 251 :: 0 :: 0 :: 0 :: List.replicate 4091 0) 0 = none := by
  rw [scanChunk]
  rw [if_pos (by norm_num)]
  rw [if_neg (by decide)]
  exact scanChunk_no_sync _ 1 (fun b hb => by
    rw [List.mem_cons, List.mem_cons, List.mem_cons, List.mem_cons,
      List.mem_replicate] at hb
    omega)

theorem c2_framesLoop : ∀ fuel, framesLoop c2Input 8192 fuel 0 0 = none
  | 0 => rfl
  | fuel + 1 => by
    rw [framesLoop]
    rw [if_pos (by norm_num)]
    rw [c2_chunk_eq, c2_scanChunk]
    rw [if_neg (by
      intro h
      rw [List.length_cons, List.length_cons, List.length_cons, List.length_cons,
        List.length_cons, List.length_replicate] at h
      omega)]
    exact c2_framesLoop fuel

theorem c2Input_no_tokens : ∀ b ∈ c2Input, b ≠ 88 ∧ b ≠ 73 ∧ b ≠ 86 := by
  intro b hb
  rw [c2Input, List.mem_append, List.mem_replicate] at hb
  rcases hb with hb | hb
  · simp at hb
    omega
  · omega

theorem xingScan_no_token : ∀ (hdr l : Bytes),
    (∀ b ∈ l, b ≠ 88 ∧ b ≠ 73 ∧ b ≠ 86) → xingScan hdr l = GoResult.ret none
  | _, [], _ => rfl
  | hdr, b :: rest, h => by
    rw [xingScan]
    by_cases hlen : (b :: rest).length ≤ 12
    · rw [if_pos hlen]
    · have hb := h b (by simp)
      rw [if_neg hlen]
      rw [if_neg ?s1, if_neg ?s2]
      case s1 =>
        rintro ⟨ht | ht, -, -⟩ <;>
        · rw [show (b :: rest).take 4 = b :: rest.take 3 from rfl] at ht
          simp [xingToken, infoToken] at ht
          omega
      case s2 =>
        intro ht
        rw [show (b :: rest).take 4 = b :: rest.take 3 from rfl] at ht
        simp [vbriToken] at ht
        omega
      exact xingScan_no_token hdr rest (fun x hx => h x (by simp [hx]))

/-- C2 fails on the code: on `c2Input` — a file whose leading four bytes pass
the sync check and resolve a 44100 Hz sample rate but whose frame size is 0,
so the sampling scan finds no advancing frame — the frame loop re-reads the
same chunk with `pos` unchanged forever, and `mp3Handler.ExtractDuration`
never returns, whatever fuel it is given.  The claim that every
duration-estimation call performs bounded work and terminates is false. -/
theorem c2_frames_scan_diverges (fuel : Nat) : mp3ExtractDuration fuel c2Input = none := by
  have hlen : c2Input.length = 8192 := by
    rw [c2Input, List.length_append, List.length_replicate]
    rfl
  have hbuf : (readAt c2Input 0 8192).1 = c2Input := by
    simp only [readAt_def]
    rw [List.drop_zero]
    exact List.take_of_length_le (by rw [hlen])
  have hshort : (readAt c2Input 0 8192).2 = false := by
    simp only [readAt_def]
    rw [List.drop_zero, List.length_take, hlen]
    rfl
  rw [mp3ExtractDuration]
  rw [if_neg (by omega)]
  rw [if_neg (by rw [hshort]; simp), hbuf]
  rw [mp3Pipeline]
  rw [if_neg (by
    rw [not_not]
    exact ⟨rfl, rfl⟩)]
  have hx : extractDurationFromXing c2Input = GoResult.ret (Except.error Mp3Err.noXing) := by
    rw [extractDurationFromXing, xingScan_no_token _ _ c2Input_no_tokens]
  rw [hx]
  rw [mp3Pipeline.mp3AfterXing]
  have hf : extractDurationFromFrames fuel c2Input c2Input = none := by
    rw [extractDurationFromFrames]
    rw [if_neg (by decide)]
    rw [show min c2Input.length (512 * 1024) = 8192 by rw [hlen]; norm_num]
    rw [c2_framesLoop fuel]
  rw [hf]

/-! ## OGG duration estimation (oggHandler.ExtractDuration)

The handler reads the last 8KB (clamping a negative start offset to 0, which
Nat subtraction models directly), then walks `i` from `len(buffer)-5` down to
0 comparing the 5-byte window `buffer[i:i+5]` with the 6-character string
literal `vorbis` — a comparison between slices of different lengths. -/

/-- The ASCII bytes of the 6-byte string literal `vorbis`. -/
def vorbisToken : Bytes := [118, 111, 114, 98, 105, 115]

/-- The little-endian sample rate at index `i`:
`buffer[i+11]<<24 | buffer[i+10]<<16 | buffer[i+9]<<8 | buffer[i+8]`. -/
def oggSampleRate (buffer : Bytes) (i : Nat) : Nat :=
  buffer.getD (i + 11) 0 * 16777216 + buffer.getD (i + 10) 0 * 65536 +
    buffer.getD (i + 9) 0 * 256 + buffer.getD (i + 8) 0

/-- OGG estimator errors. -/
inductive OggErr where
  | readTail | noDuration
  deriving DecidableEq

/-- The body of the backward loop at one index `i`: compare the 5-byte window
with the `vorbis` literal and, under the `i+12 < len(buffer)` guard, read the
little-endian sample rate; the `uint32` product `sampleRate*16` keeps Go's
32-bit wrap. -/
def oggCheckAt (fileSize : Nat) (buffer : Bytes) (i : Nat) : Option ℚ :=
  if (buffer.drop i).take 5 = vorbisToken then
    if i + 12 < buffer.length then
      if 0 < oggSampleRate buffer i then
        some (((fileSize * 8 : ℕ) : ℚ) / (((oggSampleRate buffer i * 16) % 4294967296 : ℕ) : ℚ))
      else none
    else none
  else none

/-- The backward scan from index `i` down to 0. -/
def oggScanDown (fileSize : Nat) (buffer : Bytes) : Nat → Option ℚ
  | 0 => oggCheckAt fileSize buffer 0
  | i + 1 =>
    match oggCheckAt fileSize buffer (i + 1) with
    | some d => some d
    | none => oggScanDown fileSize buffer i

/-- `oggHandler.ExtractDuration(filePath)`. -/
def oggExtractDuration (c : Bytes) : Except OggErr ℚ :=
  if (readAt c (c.length - 8192) 8192).2 then Except.error OggErr.readTail
  else if 5 ≤ ((readAt c (c.length - 8192) 8192).1).length then
    match oggScanDown c.length ((readAt c (c.length - 8192) 8192).1)
        (((readAt c (c.length - 8192) 8192).1).length - 5) with
    | some d => Except.ok d
    | none => Except.error OggErr.noDuration
  else Except.error OggErr.noDuration

/-- A 5-element window can never equal the 6-element `vorbis` literal. -/
theorem take5_ne_vorbis (l : Bytes) : l.take 5 ≠ vorbisToken := by
  intro h
  have h5 : (l.take 5).length ≤ 5 := by
    rw [List.length_take]
    omega
  rw [h] at h5
  simp [vorbisToken] at h5

theorem oggCheckAt_none (fs : Nat) (b : Bytes) (i : Nat) : oggCheckAt fs b i = none := by
  rw [oggCheckAt, if_neg (take5_ne_vorbis _)]

theorem oggScanDown_none (fs : Nat) (b : Bytes) : ∀ i, oggScanDown fs b i = none
  | 0 => oggCheckAt_none fs b 0
  | i + 1 => by
    rw [oggScanDown, oggCheckAt_none]
    exact oggScanDown_none fs b i

/-- An 8192-byte file whose tail contains the 6-byte `vorbis` token at
offset 8000, followed (2 bytes later) by the 4-byte little-endian sample
rate 44100. -/
def c1Input : Bytes :=
  List.replicate 8000 0 ++ (vorbisToken ++ ([0, 0] ++ ([68, 172, 0, 0] ++ List.replicate 180 0)))

theorem c1_len : c1Input.length = 8192 := by
  rw [c1Input, List.length_append, List.length_append, List.length_append,
    List.length_append, List.length_replicate, List.length_replicate]
  rfl

theorem c1_drop : c1Input.drop 8000 = vorbisToken ++ ([0, 0] ++ ([68, 172, 0, 0] ++ List.replicate 180 0)) := by
  rw [c1Input]
  exact List.drop_left' (by rw [List.length_replicate])

theorem c1_short_flag : (readAt c1Input 0 8192).2 = false := by
  simp only [readAt_def]
  rw [List.drop_zero, List.length_take, c1_len]
  rfl

/-- C1 fails on the code: `c1Input` carries the `vorbis` token with a nonzero
little-endian sample rate in its tail window, yet `oggHandler.ExtractDuration`
returns the failure `could not determine OGG duration`, because the Go code
compares the 5-byte slice `buffer[i:i+5]` with the 6-character literal
`vorbis`, which can never be equal.  (By `oggScanDown_none` the scan in fact
fails on every input.) -/
theorem c1_vorbis_scan_dead :
    (c1Input.drop 8000).take 6 = vorbisToken ∧
    oggSampleRate c1Input 8000 = 44100 ∧
    oggExtractDuration c1Input = Except.error OggErr.noDuration := by
  refine ⟨?_, ?_, ?_⟩
  · rw [c1_drop]
    rfl
  · rw [oggSampleRate]
    rw [← getD_drop c1Input 8000 11, ← getD_drop c1Input 8000 10,
      ← getD_drop c1Input 8000 9, ← getD_drop c1Input 8000 8, c1_drop]
    rfl
  · rw [oggExtractDuration]
    rw [show c1Input.length - 8192 = 0 by rw [c1_len]]
    rw [if_neg (by rw [c1_short_flag]; simp)]
    rw [if_pos (by
      simp only [readAt_def]
      rw [List.drop_zero, List.length_take, c1_len]
      norm_num)]
    rw [oggScanDown_none]

/-- A 1000-byte file whose leading four bytes are a valid MPEG-1 Layer III
header (sync, 128 kbps, 44100 Hz). -/
def c3Input : Bytes := [255, 251, 144, 0] ++ List.replicate 996 0

theorem c3_len : c3Input.length = 1000 := by
  rw [c3Input, List.length_append, List.length_replicate]
  rfl

/-- Any file of fewer than 8192 bytes makes the MP3 handler's header-window
read short; the handler treats the resulting `io.EOF` as fatal. -/
theorem mp3_short_window_fails (fuel : Nat) (c : Bytes) (h4 : 4 ≤ c.length)
    (h : c.length < 8192) :
    mp3ExtractDuration fuel c = some (GoResult.ret (Except.error Mp3Err.readHeader)) := by
  rw [mp3ExtractDuration]
  rw [if_neg (by omega)]
  rw [if_pos (by
    simp only [readAt_def]
    rw [List.drop_zero, List.length_take]
    simp
    omega)]

/-- C3 fails on the code: `c3Input` is a 1000-byte source with a valid MPEG
frame header — far more than the 4 bytes the claim allows as the only hard
failure — yet both the MP3 and the OGG estimator fail at their very first
window read, because `os.File.ReadAt` into a fixed 8192-byte buffer returns
`io.EOF` whenever the file is shorter than the window and both handlers
treat any non-nil error as fatal.  The window read does not return truncated
bytes to the estimators. -/
theorem c3_truncated_window_fatal :
    4 ≤ c3Input.length ∧
    mp3ExtractDuration 1 c3Input = some (GoResult.ret (Except.error Mp3Err.readHeader)) ∧
    oggExtractDuration c3Input = Except.error OggErr.readTail := by
  refine ⟨by rw [c3_len]; omega, ?_, ?_⟩
  · exact mp3_short_window_fails 1 c3Input (by rw [c3_len]; omega) (by rw [c3_len]; omega)
  · rw [oggExtractDuration]
    rw [if_pos (by
      simp only [readAt_def]
      rw [List.length_take, List.length_drop, c3_len]
      norm_num)]

/-! ## FLAC duration estimation (flacHandler.ExtractDuration)

A 10-byte header read resolves a leading ID3 wrapper (synchsafe size at
offset 6), then a fixed 32-byte window is read at the container start; the
STREAMINFO payload is the 18 bytes after the `fLaC` signature and the 4-byte
block header.  Durations are exact rationals.  One Go quirk is kept: the
`uint16` sum `minBlockSize+maxBlockSize` wraps modulo 65536.  In the
bits-per-sample expression Go's `|` and `+` share one precedence level and
associate left, so the source computes `((s12&1)<<4 | (s13&0xF0)>>4) + 1`;
the or's operands occupy disjoint bit ranges, and `Nat.lor` mirrors `|`. -/

/-- The ASCII bytes of `fLaC`. -/
def fLaCBytes : Bytes := [102, 76, 97, 67]

/-- The ASCII bytes of `ID3`. -/
def id3Bytes : Bytes := [73, 68, 51]

/-- The 4-byte synchsafe size at offsets 6..9 of a tag header:
`h[6]<<21 | h[7]<<14 | h[8]<<7 | h[9]`. -/
def synchsafe (h : Bytes) : Nat :=
  h.getD 6 0 * 2097152 + h.getD 7 0 * 16384 + h.getD 8 0 * 128 + h.getD 9 0

/-- The container start offset: `10 + synchsafe size` behind an `ID3` tag
wrapper, else 0 (computed from the 10-byte header window). -/
def flacStart (c : Bytes) : Nat :=
  if (c.take 10).take 3 = id3Bytes then 10 + synchsafe (c.take 10) else 0

/-- `minBlockSize`: 16 bits big-endian at STREAMINFO offsets 0..1. -/
def flacMinBlockSize (si : Bytes) : Nat := si.getD 0 0 * 256 + si.getD 1 0

/-- `maxBlockSize`: 16 bits big-endian at STREAMINFO offsets 2..3. -/
def flacMaxBlockSize (si : Bytes) : Nat := si.getD 2 0 * 256 + si.getD 3 0

/-- `sampleRate`: `si[10]<<12 | si[11]<<4 | si[12]>>4` (20 bits). -/
def flacSampleRate (si : Bytes) : Nat :=
  si.getD 10 0 * 4096 + si.getD 11 0 * 16 + si.getD 12 0 / 16

/-- `channels`: `((si[12] & 0x0E) >> 1) + 1`. -/
def flacChannels (si : Bytes) : Nat := si.getD 12 0 / 2 % 8 + 1

/-- `bitsPerSample`: `((si[12]&0x01)<<4) | ((si[13]&0xF0)>>4) + 1` — Go's
`|` and `+` share a precedence level and associate left, so this is
`(((si[12]&0x01)<<4) | ((si[13]&0xF0)>>4)) + 1`. -/
def flacBitsPerSample (si : Bytes) : Nat :=
  Nat.lor (si.getD 12 0 % 2 * 16) (si.getD 13 0 / 16 % 16) + 1

/-- `totalSamples`: the 36-bit value
`(si[13]&0x0F)<<32 | si[14]<<24 | si[15]<<16 | si[16]<<8 | si[17]`. -/
def flacTotalSamples (si : Bytes) : Nat :=
  si.getD 13 0 % 16 * 4294967296 + si.getD 14 0 * 16777216 + si.getD 15 0 * 65536 +
    si.getD 16 0 * 256 + si.getD 17 0

/-- FLAC estimator errors, one per `return`-with-error site. -/
inductive FlacErr where
  | readHeader | notFlac | readBuffer | streamInfoNotFirst | blockSizeSmall
  | readStreamInfo | noSampleRate | noDuration
  deriving DecidableEq

/-- The 32-byte window at the container start. -/
def flacBufferOf (c : Bytes) : Bytes := (c.drop (flacStart c)).take 32

/-- The 18-byte STREAMINFO payload slice `buffer[8:26]`. -/
def flacStreamInfoOf (c : Bytes) : Bytes := ((flacBufferOf c).drop 8).take 18

/-- Last-resort estimate: `fileSize * 8 / (sampleRate * channels * bitsPerSample)`. -/
def flacRawEstimate (c : Bytes) (si : Bytes) : Except FlacErr ℚ :=
  if 0 < ((c.length * 8 : ℕ) : ℚ) /
      ((flacSampleRate si * flacChannels si * flacBitsPerSample si : ℕ) : ℚ) then
    Except.ok (((c.length * 8 : ℕ) : ℚ) /
      ((flacSampleRate si * flacChannels si * flacBitsPerSample si : ℕ) : ℚ))
  else Except.error FlacErr.noDuration

/-- Block-sizing estimate:
`(fileSize / avgBlockSize) * samplesPerBlock / sampleRate` where the
`uint16` sum in `avgBlockSize` wraps modulo 65536. -/
def flacBlockEstimate (c : Bytes) (si : Bytes) : Except FlacErr ℚ :=
  if 0 < flacMinBlockSize si ∧ 0 < flacMaxBlockSize si then
    if 0 < ((c.length : ℚ) / ((((flacMinBlockSize si + flacMaxBlockSize si) % 65536 : ℕ) : ℚ) / 2)) *
        (if 0 < flacMaxBlockSize si then (flacMaxBlockSize si : ℚ) else (flacMinBlockSize si : ℚ)) /
        (flacSampleRate si : ℚ) then
      Except.ok (((c.length : ℚ) / ((((flacMinBlockSize si + flacMaxBlockSize si) % 65536 : ℕ) : ℚ) / 2)) *
        (if 0 < flacMaxBlockSize si then (flacMaxBlockSize si : ℚ) else (flacMinBlockSize si : ℚ)) /
        (flacSampleRate si : ℚ))
    else flacRawEstimate c si
  else flacRawEstimate c si

/-- The decode steps after the STREAMINFO slice is in hand. -/
def flacFromStreamInfo (c : Bytes) (si : Bytes) : Except FlacErr ℚ :=
  if flacSampleRate si = 0 then Except.error FlacErr.noSampleRate
  else if 0 < flacTotalSamples si then
    if 0 < (flacTotalSamples si : ℚ) / (flacSampleRate si : ℚ) then
      Except.ok ((flacTotalSamples si : ℚ) / (flacSampleRate si : ℚ))
    else flacBlockEstimate c si
  else flacBlockEstimate c si

/-- The checks on the 32-byte window: `fLaC` signature, block type 0
(STREAMINFO first), 24-bit block length at least 18, then the STREAMINFO
slice (the window is 32 bytes, so the in-window branch is taken; the
fresh-read branch mirrors the code's dead `len(buffer) < 26` arm). -/
def flacDecodeBuffer (c : Bytes) (buffer : Bytes) : Except FlacErr ℚ :=
  if ¬(buffer.take 4 = fLaCBytes) then Except.error FlacErr.notFlac
  else if buffer.getD 4 0 % 128 ≠ 0 then Except.error FlacErr.streamInfoNotFirst
  else if buffer.getD 5 0 * 65536 + buffer.getD 6 0 * 256 + buffer.getD 7 0 < 18 then
    Except.error FlacErr.blockSizeSmall
  else if 26 ≤ buffer.length then
    flacFromStreamInfo c ((buffer.drop 8).take 18)
  else if (readAt c (flacStart c + 8) 18).2 then Except.error FlacErr.readStreamInfo
  else flacFromStreamInfo c ((readAt c (flacStart c + 8) 18).1)

/-- `flacHandler.ExtractDuration(filePath)`. -/
def flacExtractDuration (c : Bytes) : Except FlacErr ℚ :=
  if (readAt c 0 10).2 then Except.error FlacErr.readHeader
  else if ¬((c.take 10).take 3 = id3Bytes) ∧ ¬((c.take 10).take 4 = fLaCBytes) then
    Except.error FlacErr.notFlac
  else if (readAt c (flacStart c) 32).2 then Except.error FlacErr.readBuffer
  else flacDecodeBuffer c ((readAt c (flacStart c) 32).1)

/-- A STREAMINFO payload declaring sampleRate 44100 and totalSamples 441000. -/
def c6StreamInfo : Bytes :=
  [0, 16, 0, 16, 0, 0, 0, 0, 0, 0, 10, 196, 64, 0, 0, 6, 186, 168]

/-- A minimal, fully valid 26-byte FLAC file: `fLaC`, a STREAMINFO block
header of type 0 and length 18, and `c6StreamInfo`. -/
def c6Cex : Bytes := fLaCBytes ++ ([0, 0, 0, 18] ++ c6StreamInfo)

/-- C6 fails on the code as universally stated: `c6Cex` is a FLAC file whose
STREAMINFO decodes to sampleRate 44100 and totalSamples 441000, yet the
estimator fails, because the fixed 32-byte window read returns `io.EOF` on a
26-byte file and the handler treats that as fatal. -/
theorem c6_counterexample :
    flacSampleRate c6StreamInfo = 44100 ∧ flacTotalSamples c6StreamInfo = 441000 ∧
    c6Cex.length = 26 ∧
    flacExtractDuration c6Cex = Except.error FlacErr.readBuffer := by
  refine ⟨by decide, by decide, by decide, by decide⟩

/-- C6 as amended: the exact duration is returned provided the file carries
at least 32 bytes from the container start (the fixed window read must not
be short). -/
theorem c6_flac_exact_duration (c : Bytes)
    (h10 : 10 ≤ c.length)
    (hsig0 : (c.take 10).take 3 = id3Bytes ∨ (c.take 10).take 4 = fLaCBytes)
    (hsize : flacStart c + 32 ≤ c.length)
    (hsig : (flacBufferOf c).take 4 = fLaCBytes)
    (hbt : (flacBufferOf c).getD 4 0 % 128 = 0)
    (hbs : 18 ≤ (flacBufferOf c).getD 5 0 * 65536 + (flacBufferOf c).getD 6 0 * 256 +
      (flacBufferOf c).getD 7 0)
    (hsr : 0 < flacSampleRate (flacStreamInfoOf c))
    (hts : 0 < flacTotalSamples (flacStreamInfoOf c)) :
    flacExtractDuration c =
      Except.ok ((flacTotalSamples (flacStreamInfoOf c) : ℚ) /
        (flacSampleRate (flacStreamInfoOf c) : ℚ)) := by
  rw [flacExtractDuration]
  rw [if_neg (by
    simp only [readAt_def]
    rw [List.drop_zero, List.length_take]
    simp
    omega)]
  rw [if_neg (by tauto)]
  rw [if_neg (by
    simp only [readAt_def]
    rw [List.length_take, List.length_drop]
    simp
    omega)]
  rw [show (readAt c (flacStart c) 32).1 = flacBufferOf c from rfl]
  rw [flacDecodeBuffer]
  rw [if_neg (not_not_intro hsig)]
  rw [if_neg (fun h => h hbt)]
  rw [if_neg (by omega)]
  rw [if_pos (by
    rw [flacBufferOf, List.length_take, List.length_drop]
    omega)]
  rw [show ((flacBufferOf c).drop 8).take 18 = flacStreamInfoOf c from rfl]
  rw [flacFromStreamInfo]
  rw [if_neg (by omega)]
  rw [if_pos hts]
  rw [if_pos (div_pos (by exact_mod_cast hts) (by exact_mod_cast hsr))]

/-- `c6Cex` padded to 32 bytes, so the fixed window read succeeds. -/
def c6Witness : Bytes := c6Cex ++ [0, 0, 0, 0, 0, 0]

theorem c6_flac_exact_duration_witness :
    flacExtractDuration c6Witness = Except.ok (10 : ℚ) := by
  rw [c6_flac_exact_duration c6Witness (by decide) (Or.inr (by decide)) (by decide)
    (by decide) (by decide) (by decide) (by decide) (by decide)]
  have h1 : flacTotalSamples (flacStreamInfoOf c6Witness) = 441000 := by decide
  have h2 : flacSampleRate (flacStreamInfoOf c6Witness) = 44100 := by decide
  rw [h1, h2]
  norm_num

/-! ## Format sniffing (detectFormatFromContent / detectFormatFromHeader)

A window of up to 4096 bytes is read at offset 0 (`n` bytes; a short read is
tolerated here as long as `n ≥ 4`).  `detectFormatFromContent` first handles
an `ID3` wrapper — re-reading a fresh 4-byte window at `10 + synchsafe size`
only when that offset lies strictly beyond `n` — and otherwise defers to
`detectFormatFromHeader`, which scans for `fLaC`/`OggS` signatures anywhere
in the window, retries the in-window `ID3` arithmetic, and falls back to the
MPEG sync check. -/

/-- The ASCII bytes of `OggS`. -/
def oggSBytes : Bytes := [79, 103, 103, 83]

/-- Sniffer errors. -/
inductive SniffErr where
  | readFailed | tooSmall | headerShort | unknownFormat
  deriving DecidableEq

/-- The signature scan over every 4-byte window (`i <= readLen-4`). -/
def scanSig : Bytes → Option String
  | a :: b :: c :: d :: rest =>
    if [a, b, c, d] = fLaCBytes then some "FLAC"
    else if [a, b, c, d] = oggSBytes then some "OGG"
    else scanSig (b :: c :: d :: rest)
  | _ => none

/-- `detectFormatFromHeader(header, readLen)`. -/
def detectFormatFromHeader (header : Bytes) (readLen : Nat) : Except SniffErr String :=
  if readLen < 4 then Except.error SniffErr.headerShort
  else
    match scanSig header with
    | some f => Except.ok f
    | none =>
      if 10 ≤ readLen ∧ header.take 3 = id3Bytes then
        if 10 + synchsafe header + 4 ≤ readLen ∧
            (header.drop (10 + synchsafe header)).take 4 = fLaCBytes then
          Except.ok "FLAC"
        else Except.ok "MP3"
      else if 2 ≤ readLen ∧ header.getD 0 0 = 255 ∧ header.getD 1 0 / 32 % 8 = 7 then
        Except.ok "MP3"
      else Except.error SniffErr.unknownFormat

/-- The bytes obtained by the sniffer's 4096-byte window read. -/
def sniffWindow (c : Bytes) : Bytes := (readAt c 0 4096).1

/-- Whether the sniffer's window read was short (`err != nil` in Go). -/
def sniffShort (c : Bytes) : Bool := (readAt c 0 4096).2

/-- `detectFormatFromContent(file)`. -/
def detectFormatFromContent (c : Bytes) : Except SniffErr String :=
  if sniffShort c ∧ (sniffWindow c).length < 4 then Except.error SniffErr.readFailed
  else if (sniffWindow c).length < 4 then Except.error SniffErr.tooSmall
  else if 10 ≤ (sniffWindow c).length ∧ (sniffWindow c).take 3 = id3Bytes then
    if (sniffWindow c).length < 10 + synchsafe (sniffWindow c) then
      if ¬(readAt c (10 + synchsafe (sniffWindow c)) 4).2 ∧
          ((readAt c (10 + synchsafe (sniffWindow c)) 4).1).length = 4 ∧
          (readAt c (10 + synchsafe (sniffWindow c)) 4).1 = fLaCBytes then
        Except.ok "FLAC"
      else detectFormatFromHeader (sniffWindow c) (sniffWindow c).length
    else if 10 + synchsafe (sniffWindow c) + 4 ≤ (sniffWindow c).length ∧
        ((sniffWindow c).drop (10 + synchsafe (sniffWindow c))).take 4 = fLaCBytes then
      Except.ok "FLAC"
    else detectFormatFromHeader (sniffWindow c) (sniffWindow c).length
  else detectFormatFromHeader (sniffWindow c) (sniffWindow c).length

theorem sniffWindow_length (c : Bytes) : (sniffWindow c).length = min 4096 c.length := by
  rw [sniffWindow]
  simp only [readAt_def]
  rw [List.drop_zero, List.length_take]

theorem sniffWindow_take3 (c : Bytes) : (sniffWindow c).take 3 = c.take 3 := by
  rw [sniffWindow]
  simp only [readAt_def]
  rw [List.drop_zero, List.take_take]
  congr 1

theorem sniffWindow_slice (c : Bytes) (off : Nat) (h : off + 4 ≤ 4096) :
    ((sniffWindow c).drop off).take 4 = (c.drop off).take 4 := by
  rw [sniffWindow]
  simp only [readAt_def]
  rw [List.drop_zero, List.drop_take, List.take_take]
  congr 1
  omega

theorem scanSig_no_heads : ∀ (l : Bytes), (∀ b ∈ l, b ≠ 102 ∧ b ≠ 79) → scanSig l = none
  | [], _ => rfl
  | [_], _ => rfl
  | [_, _], _ => rfl
  | [_, _, _], _ => rfl
  | a :: b :: c :: d :: rest, h => by
    rw [scanSig]
    rw [if_neg (by
      intro hEq
      simp [fLaCBytes] at hEq
      exact (h a (by simp)).1 hEq.1)]
    rw [if_neg (by
      intro hEq
      simp [oggSBytes] at hEq
      exact (h a (by simp)).2 hEq.1)]
    exact scanSig_no_heads (b :: c :: d :: rest) (fun x hx => h x (by simp at hx ⊢; tauto))

theorem detectFormatFromHeader_id3_mp3 (header : Bytes) (n : Nat)
    (h4 : ¬ n < 4) (hscan : scanSig header = none)
    (hid3 : 10 ≤ n ∧ header.take 3 = id3Bytes)
    (hnof : ¬(10 + synchsafe header + 4 ≤ n ∧
      (header.drop (10 + synchsafe header)).take 4 = fLaCBytes)) :
    detectFormatFromHeader header n = Except.ok "MP3" := by
  rw [detectFormatFromHeader, if_neg h4, hscan]
  dsimp only
  rw [if_pos hid3, if_neg hnof]

/-- The sniffer window of the counterexample: an `ID3` header whose synchsafe
size 4086 points `flacOffset` exactly at the end of the 4096-byte window. -/
def c4Window : Bytes := [73, 68, 51, 0, 0, 0, 0, 0, 31, 118] ++ List.replicate 4086 0

/-- The counterexample file: the window followed by the `fLaC` signature at
offset 4096 = 10 + 4086 (file length 4100). -/
def c4Cex : Bytes := c4Window ++ fLaCBytes

theorem c4Window_length : c4Window.length = 4096 := by
  rw [c4Window, List.length_append, List.length_replicate]
  rfl

theorem c4Cex_length : c4Cex.length = 4100 := by
  rw [c4Cex, List.length_append, c4Window_length]
  rfl

theorem c4_window_eq : sniffWindow c4Cex = c4Window := by
  rw [sniffWindow]
  simp only [readAt_def]
  rw [List.drop_zero, c4Cex]
  exact List.take_left' c4Window_length

theorem c4_synchsafe : synchsafe c4Window = 4086 := by decide

theorem c4Window_no_sig_heads : ∀ b ∈ c4Window, b ≠ 102 ∧ b ≠ 79 := by
  intro b hb
  rw [c4Window, List.mem_append, List.mem_replicate] at hb
  rcases hb with hb | hb
  · simp at hb
    omega
  · omega

/-- C4 fails on the code at the window boundary: `c4Cex` begins with `ID3`,
its synchsafe size field points `10 + wrapperSize` at a `fLaC` signature —
sitting exactly at the end of the 4096-byte window — and the sniffer reports
MP3: the fresh 4-byte read happens only when the offset is strictly beyond
the window, and the in-window check requires the whole signature inside it. -/
theorem c4_counterexample :
    c4Cex.take 3 = id3Bytes ∧
    (c4Cex.drop (10 + synchsafe (sniffWindow c4Cex))).take 4 = fLaCBytes ∧
    detectFormatFromContent c4Cex = Except.ok "MP3" := by
  have hdrop : c4Cex.drop 4096 = fLaCBytes := by
    rw [c4Cex]
    exact List.drop_left' c4Window_length
  refine ⟨by decide, ?_, ?_⟩
  · rw [c4_window_eq, c4_synchsafe]
    rw [show (10 + 4086 : ℕ) = 4096 from rfl, hdrop]
    rfl
  · rw [detectFormatFromContent, c4_window_eq, c4Window_length, c4_synchsafe]
    rw [if_neg (by rintro ⟨-, h4⟩; omega)]
    rw [if_neg (by omega)]
    rw [if_pos ⟨by omega, by decide⟩]
    rw [if_neg (by omega)]
    rw [if_neg (by rintro ⟨hle, -⟩; omega)]
    exact detectFormatFromHeader_id3_mp3 c4Window 4096 (by omega)
      (scanSig_no_heads c4Window c4Window_no_sig_heads)
      ⟨by omega, by decide⟩
      (by rintro ⟨hle, -⟩; rw [c4_synchsafe] at hle; omega)

/-- C4 as amended: an `ID3`-wrapped `fLaC` signature is reported as FLAC
whenever the signature either fits entirely inside the sniffed window
(`flacOffset + 4 ≤ n`) or begins strictly beyond it (`n < flacOffset`, the
fresh-read case); at the boundary — `flacOffset` at most `n` but
`flacOffset + 4 > n` — the sniffer reports MP3 (see the counterexample). -/
theorem c4_id3_wrapped_flac (c : Bytes)
    (h10 : 10 ≤ c.length)
    (hid3 : c.take 3 = id3Bytes)
    (hoff : 10 + synchsafe (sniffWindow c) + 4 ≤ c.length)
    (hflac : (c.drop (10 + synchsafe (sniffWindow c))).take 4 = fLaCBytes)
    (hcase : 10 + synchsafe (sniffWindow c) + 4 ≤ (sniffWindow c).length ∨
      (sniffWindow c).length < 10 + synchsafe (sniffWindow c)) :
    detectFormatFromContent c = Except.ok "FLAC" := by
  have hwl := sniffWindow_length c
  rw [detectFormatFromContent]
  rw [if_neg (by rintro ⟨-, h4⟩; omega)]
  rw [if_neg (by omega)]
  rw [if_pos ⟨by omega, by rw [sniffWindow_take3]; exact hid3⟩]
  rcases hcase with hin | hout
  · rw [if_neg (by omega)]
    rw [if_pos ⟨hin, by
      rw [sniffWindow_slice c _ (by omega)]
      exact hflac⟩]
  · rw [if_pos hout]
    have hval : (readAt c (10 + synchsafe (sniffWindow c)) 4).1 =
        (c.drop (10 + synchsafe (sniffWindow c))).take 4 := rfl
    have hnoshort : (readAt c (10 + synchsafe (sniffWindow c)) 4).2 = false := by
      simp only [readAt_def]
      rw [hflac]
      rfl
    rw [if_pos ⟨by rw [hnoshort]; simp, by rw [hval, hflac]; rfl, by rw [hval]; exact hflac⟩]

/-- A 14-byte `ID3`-wrapped FLAC with synchsafe size 0: `fLaC` at offset 10,
inside the window. -/
def c4Witness : Bytes := [73, 68, 51, 0, 0, 0, 0, 0, 0, 0] ++ fLaCBytes

theorem c4_id3_wrapped_flac_witness :
    detectFormatFromContent c4Witness = Except.ok "FLAC" :=
  c4_id3_wrapped_flac c4Witness (by decide) (by decide) (by decide) (by decide)
    (Or.inl (by decide))

/-! ## The Arbiter (AudioService.ParseFile)

`ParseFile` first runs `parseFileWithTag` (dominated by the external tag
library and the audiometa FLAC path), then resolves the format to use,
dispatches to a handler's `ExtractDuration`, and keeps the estimate only
when it succeeded with a positive value.  External collaborators are
embedded as deterministic oracles over the byte content (`ParseEnv`); the
filename extension is supplied already uppercased and dot-stripped, modelling
`strings.ToUpper(strings.TrimPrefix(filepath.Ext(path), "."))`.  The path
performs no writes, so the embedding is a pure function of the content. -/

/-- The fields of `model.FileMetadata` this core produces. -/
structure FileMetadata where
  Format : String
  Duration : ℚ
  deriving DecidableEq

/-- Oracles for the external collaborators: `parseFileWithTag` (result plus
error flag) and the `tag.ReadFrom` file type used when no handler matches
the extension (`none` when `tag.ReadFrom` fails). -/
structure ParseEnv where
  parseTag : Bytes → FileMetadata × Bool
  tagFileType : Bytes → Option String

/-- ASCII model of `strings.ToUpper`. -/
def goToUpper (s : String) : String :=
  ⟨s.data.map (fun ch => if ch.isLower then Char.ofNat (ch.toNat - 32) else ch)⟩

/-- The three format handlers. -/
inductive Handler where
  | mp3 | flac | ogg
  deriving DecidableEq

/-- `getMP3Handler(ext)`. -/
def getMP3Handler (ext : String) : Option Handler :=
  if goToUpper ext = "MP3" ∨ goToUpper ext = "MPEG" then some Handler.mp3 else none

/-- `getFLACHandler(ext)`. -/
def getFLACHandler (ext : String) : Option Handler :=
  if goToUpper ext = "FLAC" then some Handler.flac else none

/-- `getOGGHandler(ext)`. -/
def getOGGHandler (ext : String) : Option Handler :=
  if goToUpper ext = "OGG" ∨ goToUpper ext = "OGV" ∨ goToUpper ext = "OPUS" then
    some Handler.ogg
  else none

/-- `getFormatHandlerByExtension(ext)`. -/
def getFormatHandlerByExtension (ext : String) : Option Handler :=
  match getMP3Handler (goToUpper ext) with
  | some h => some h
  | none =>
    match getFLACHandler (goToUpper ext) with
    | some h => some h
    | none => getOGGHandler (goToUpper ext)

/-- `getFormatHandlerByFileType(fileType)`. -/
def getFormatHandlerByFileType (ft : String) : Option Handler :=
  if ft = "MP3" then some Handler.mp3
  else if ft = "FLAC" then some Handler.flac
  else if ft = "OGG" ∨ ft = "OGV" ∨ ft = "OPUS" then some Handler.ogg
  else none

/-- Dispatch `handler.ExtractDuration(filePath)`; errors are collapsed to a
unit error as `ParseFile` only tests `durationErr == nil`.  A panic in the
MP3 handler propagates (nothing recovers it on this path); the FLAC and OGG
handlers have no out-of-range access. -/
def runHandler (h : Handler) (fuel : Nat) (c : Bytes) : Option (GoResult (Except Unit ℚ)) :=
  match h with
  | Handler.mp3 =>
    match mp3ExtractDuration fuel c with
    | none => none
    | some GoResult.panicked => some GoResult.panicked
    | some (GoResult.ret (Except.ok d)) => some (GoResult.ret (Except.ok d))
    | some (GoResult.ret (Except.error _)) => some (GoResult.ret (Except.error ()))
  | Handler.flac =>
    match flacExtractDuration c with
    | Except.ok d => some (GoResult.ret (Except.ok d))
    | Except.error _ => some (GoResult.ret (Except.error ()))
  | Handler.ogg =>
    match oggExtractDuration c with
    | Except.ok d => some (GoResult.ret (Except.ok d))
    | Except.error _ => some (GoResult.ret (Except.error ()))

/-- `detectFormatFromFilePath(filePath)`: content sniffing with the uppercased
extension as fallback. -/
def detectFormatFromFilePath (c : Bytes) (extUpper : String) : String :=
  match detectFormatFromContent c with
  | Except.ok f => f
  | Except.error _ => extUpper

/-- The `formatToUse` computation of `ParseFile` (lines 25–32). -/
def resolveFormat (c : Bytes) (extUpper fmt0 : String) : String :=
  if fmt0 = "" ∨ fmt0 = "UNKNOWN" then
    if detectFormatFromFilePath c extUpper = "" then extUpper
    else detectFormatFromFilePath c extUpper
  else fmt0

/-- `result.Format` after the fallback assignment of `ParseFile`. -/
def parseResult1 (c : Bytes) (extUpper : String) (r0 : FileMetadata) : FileMetadata :=
  if r0.Format = "" ∨ r0.Format = "UNKNOWN" then
    { r0 with Format := resolveFormat c extUpper r0.Format }
  else r0

/-- The duration estimate `ParseFile` obtains (lines 34–52): the handler for
the resolved format, else — via `tag.ReadFrom`'s file type — a handler by
file type; with no handler at all, `duration`/`durationErr` keep their zero
values. -/
def parseFileEstimate (env : ParseEnv) (fuel : Nat) (c : Bytes) (formatToUse : String) :
    Option (GoResult (Except Unit ℚ)) :=
  match getFormatHandlerByExtension formatToUse with
  | some h => runHandler h fuel c
  | none =>
    match env.tagFileType c with
    | some ft =>
      match getFormatHandlerByFileType ft with
      | some h => runHandler h fuel c
      | none => some (GoResult.ret (Except.ok 0))
    | none => some (GoResult.ret (Except.ok 0))

/-- `AudioService.ParseFile(filePath)`: the second component is the returned
error flag (`parseFileWithTag`'s error is propagated; estimator failures are
not).  A `none` result marks divergence of the MP3 frame scan, and a
`GoResult.panicked` result an estimator panic, which nothing on this path
recovers. -/
def parseFile (env : ParseEnv) (fuel : Nat) (c : Bytes) (extUpper : String) :
    Option (GoResult (FileMetadata × Bool)) :=
  if (env.parseTag c).2 then some (GoResult.ret (env.parseTag c))
  else
    match parseFileEstimate env fuel c (resolveFormat c extUpper (env.parseTag c).1.Format) with
    | none => none
    | some GoResult.panicked => some GoResult.panicked
    | some (GoResult.ret (Except.ok d)) =>
      if 0 < d then
        some (GoResult.ret ({ parseResult1 c extUpper (env.parseTag c).1 with Duration := d },
          false))
      else some (GoResult.ret (parseResult1 c extUpper (env.parseTag c).1, false))
    | some (GoResult.ret (Except.error _)) =>
      some (GoResult.ret (parseResult1 c extUpper (env.parseTag c).1, false))

theorem parseResult1_duration (c : Bytes) (extUpper : String) (r0 : FileMetadata) :
    (parseResult1 c extUpper r0).Duration = r0.Duration := by
  rw [parseResult1]
  split <;> rfl

/-- C7: whenever the dispatched estimator fails or returns a non-positive
value, the duration in `ParseFile`'s result is exactly the prior value
delivered by the tag-library stage — a positive previously-set duration is
never overwritten. -/
theorem c7_failed_estimate_keeps_prior (env : ParseEnv) (fuel : Nat) (c : Bytes)
    (extUpper : String) (r : FileMetadata) (b : Bool)
    (hest : ∀ d, parseFileEstimate env fuel c
      (resolveFormat c extUpper (env.parseTag c).1.Format) =
        some (GoResult.ret (Except.ok d)) → d ≤ 0)
    (hres : parseFile env fuel c extUpper = some (GoResult.ret (r, b))) :
    r.Duration = (env.parseTag c).1.Duration := by
  rw [parseFile] at hres
  by_cases herr : (env.parseTag c).2
  · rw [if_pos herr] at hres
    injection hres with h
    injection h with h2
    rw [h2]
  · rw [if_neg herr] at hres
    rcases hm : parseFileEstimate env fuel c
        (resolveFormat c extUpper (env.parseTag c).1.Format) with _ | g
    · rw [hm] at hres
      exact absurd hres (by simp)
    · rw [hm] at hres
      rcases g with e | _
      · rcases e with u | d
        · dsimp only at hres
          injection hres with h
          injection h with h2
          have hr : parseResult1 c extUpper (env.parseTag c).1 = r := congrArg Prod.fst h2
          rw [← hr, parseResult1_duration]
        · have hd := hest d hm
          dsimp only at hres
          rw [if_neg (not_lt.mpr hd)] at hres
          injection hres with h
          injection h with h2
          have hr : parseResult1 c extUpper (env.parseTag c).1 = r := congrArg Prod.fst h2
          rw [← hr, parseResult1_duration]
      · dsimp only at hres
        injection hres with h
        exact GoResult.noConfusion h

/-- C8: the arbiter is a pure, deterministic function of the byte source (no
step of the embedded path writes to it): two invocations on the same content
under the same oracles yield identical format and duration. -/
theorem c8_parse_idempotent (env : ParseEnv) (fuel : Nat) (c : Bytes) (extUpper : String)
    (r r' : FileMetadata × Bool)
    (h1 : parseFile env fuel c extUpper = some (GoResult.ret r))
    (h2 : parseFile env fuel c extUpper = some (GoResult.ret r')) :
    r.1.Format = r'.1.Format ∧ r.1.Duration = r'.1.Duration := by
  rw [h1] at h2
  injection h2 with h
  injection h with h2
  rw [h2]
  exact ⟨rfl, rfl⟩

/-- An environment whose tag stage reports format `MP3` with a tag-library
duration of 5 seconds and no error. -/
def parseEnvA : ParseEnv :=
  { parseTag := fun _ => ({ Format := "MP3", Duration := 5 }, false),
    tagFileType := fun _ => none }

theorem runHandler_mp3_error (fuel : Nat) (c : Bytes) (e : Mp3Err)
    (h : mp3ExtractDuration fuel c = some (GoResult.ret (Except.error e))) :
    runHandler Handler.mp3 fuel c = some (GoResult.ret (Except.error ())) := by
  unfold runHandler
  rw [h]

theorem parseEnvA_estimate :
    parseFileEstimate parseEnvA 1 c3Input
      (resolveFormat c3Input "MP3" (parseEnvA.parseTag c3Input).1.Format) =
      some (GoResult.ret (Except.error ())) := by
  have hresolve : resolveFormat c3Input "MP3" (parseEnvA.parseTag c3Input).1.Format = "MP3" := by
    decide
  rw [hresolve, parseFileEstimate]
  rw [show getFormatHandlerByExtension "MP3" = some Handler.mp3 from by decide]
  exact runHandler_mp3_error 1 c3Input Mp3Err.readHeader
    (mp3_short_window_fails 1 c3Input (by rw [c3_len]; omega) (by rw [c3_len]; omega))

theorem parseEnvA_result :
    parseFile parseEnvA 1 c3Input "MP3" =
      some (GoResult.ret ({ Format := "MP3", Duration := 5 }, false)) := by
  rw [parseFile]
  rw [if_neg (by simp [parseEnvA])]
  rw [parseEnvA_estimate]
  rw [show parseResult1 c3Input "MP3" (parseEnvA.parseTag c3Input).1 =
    { Format := "MP3", Duration := 5 } from by decide]

theorem c7_failed_estimate_keeps_prior_witness :
    ({ Format := "MP3", Duration := 5 } : FileMetadata).Duration =
      (parseEnvA.parseTag c3Input).1.Duration :=
  c7_failed_estimate_keeps_prior parseEnvA 1 c3Input "MP3" _ false
    (fun d h => by rw [parseEnvA_estimate] at h; exact absurd h (by simp))
    parseEnvA_result

theorem c8_parse_idempotent_witness :
    ({ Format := "MP3", Duration := 5 } : FileMetadata).Format =
        ({ Format := "MP3", Duration := 5 } : FileMetadata).Format ∧
      ({ Format := "MP3", Duration := 5 } : FileMetadata).Duration =
        ({ Format := "MP3", Duration := 5 } : FileMetadata).Duration :=
  c8_parse_idempotent parseEnvA 1 c3Input "MP3" _ _ parseEnvA_result parseEnvA_result

/-! ## Tag updating and the modification time (mp3Handler.UpdateTags /
flacHandler.UpdateTags)

Only the observable modification time matters to the claim, so the file
state is the single field `mtime`; each external library call (id3v2,
audiometa, go-flac, the OS temp/rename/write steps) is an oracle flag in the
environment, and a successful save of the target file sets `mtime := now`.
The control flow — in particular every early `return` — follows the source.
The audiometa closure's panic recovery is subsumed by a failing `OpenTag`
(no save happens); a failing `SaveTag` whose fallback also fails is modelled
as leaving `mtime` unchanged, which is irrelevant to the claim since that
path continues into the direct branch and ends in `Chtimes` on success. -/

/-- The optional tag-field arguments of `UpdateTags`. -/
structure TagArgs where
  title : Option String
  artist : Option String
  album : Option String
  genre : Option String
  coverArt : Option String
  year : Option Int
  track : Option Int
  deriving DecidableEq

/-- `coverArt != nil && *coverArt != ""`. -/
def coverGiven (a : TagArgs) : Bool :=
  match a.coverArt with
  | some s => decide (s ≠ "")
  | none => false

/-- The observable file state: its modification time. -/
structure FileTimes where
  mtime : Int
  deriving DecidableEq

/-- Update errors, one per `return`-with-error site that the model keeps. -/
inductive UpdateErr where
  | stat | openFile | coverParse | save | chtimes
  | stat2 | readHeader | readData | createTemp | writeTemp | parseFlac | saveTemp
  | finalWrite
  deriving DecidableEq

/-- Oracle outcomes for the MP3 handler's external calls. -/
structure Mp3TagEnv where
  statOk : Bool
  openOk : Bool
  coverParseOk : Bool
  saveOk : Bool
  chtimesOk : Bool
  now : Int

/-- `os.Chtimes(filePath, originalModTime, originalModTime)`. -/
def mp3Chtimes (env : Mp3TagEnv) (w : FileTimes) (original : Int) :
    Except UpdateErr FileTimes :=
  if ¬env.chtimesOk then Except.error UpdateErr.chtimes
  else Except.ok { w with mtime := original }

/-- The body of `mp3Handler.UpdateTags` after the original mtime is
captured: open, set frames in memory, parse cover art when given, save (the
save rewrites the file, so `mtime` becomes `now`), restore `mtime`. -/
def mp3AfterStat (env : Mp3TagEnv) (a : TagArgs) (w : FileTimes) (original : Int) :
    Except UpdateErr FileTimes :=
  if ¬env.openOk then Except.error UpdateErr.openFile
  else if coverGiven a ∧ ¬env.coverParseOk then Except.error UpdateErr.coverParse
  else if ¬env.saveOk then Except.error UpdateErr.save
  else mp3Chtimes env { w with mtime := env.now } original

/-- `mp3Handler.UpdateTags(filePath, ...)`. -/
def mp3UpdateTags (env : Mp3TagEnv) (a : TagArgs) (w : FileTimes) :
    Except UpdateErr FileTimes :=
  if ¬env.statOk then Except.error UpdateErr.stat
  else mp3AfterStat env a w w.mtime

/-- Oracle outcomes for the FLAC handler's external calls: the
`ParseWithAudiometa` pre-pass (`none` = parse error, otherwise the reported
year and track), `audiometa.OpenTag`, the tag's `Year()` string,
`audiometa.SaveTag` with its interface-`Save` fallback, and the direct
go-flac path's step outcomes. -/
structure FlacTagEnv where
  statOk : Bool
  parseAMeta : Option (Int × Int)
  openTagOk : Bool
  yearStr : String
  saveTagOk : Bool
  hasSaveMethod : Bool
  saveFallbackOk : Bool
  stat2Ok : Bool
  openOk : Bool
  readHeaderOk : Bool
  readDataOk : Bool
  createTempOk : Bool
  writeTempOk : Bool
  parseFlacOk : Bool
  coverParseOk : Bool
  saveTempOk : Bool
  finalWriteOk : Bool
  chtimesOk : Bool
  now : Int

/-- `onlyCoverArt`: cover art given and every other argument nil. -/
def onlyCoverArtOf (a : TagArgs) : Bool :=
  coverGiven a && decide (a.title = none) && decide (a.artist = none) &&
    decide (a.album = none) && decide (a.year = none) && decide (a.track = none) &&
    decide (a.genre = none)

/-- `existingYearFromFile` and `existingTrackFromFile` from the
`ParseWithAudiometa` pre-pass. -/
def audiometaExisting (env : FlacTagEnv) (a : TagArgs) : Int × Int :=
  if ¬(onlyCoverArtOf a = true) ∧ (a.year = none ∨ a.track = none) then
    match env.parseAMeta with
    | some yt =>
      (if a.year = none ∧ 0 < yt.1 then yt.1 else 0,
        if a.track = none ∧ 0 < yt.2 then yt.2 else 0)
    | none => (0, 0)
  else (0, 0)

/-- The audiometa closure: whether `audiometaUsed` is true afterwards and
whether the file was saved by it.  `audiometaUsed` survives only when
`OpenTag` and the save succeed and there is no omitted year/track that must
be re-added by the direct path. -/
def audiometaPhase (env : FlacTagEnv) (a : TagArgs) : Bool × Bool :=
  if ¬(onlyCoverArtOf a = true) ∧ a.track = none then
    if ¬env.openTagOk then (false, false)
    else if ¬env.saveTagOk ∧ ¬(env.hasSaveMethod ∧ env.saveFallbackOk) then (false, false)
    else
      (decide (¬((env.yearStr ≠ "" ∨ 0 < (audiometaExisting env a).1) ∧ a.year = none)) &&
        decide (¬(0 < (audiometaExisting env a).2 ∧ a.track = none)), true)
  else (false, false)

/-- The FLAC handler after the audiometa closure, with `w1` the file state
it left behind: the `audiometaUsed` early return succeeds WITHOUT restoring
the modification time; the direct go-flac path ends in `Chtimes(original)`. -/
def flacAfterAudiometa (env : FlacTagEnv) (a : TagArgs) (w1 : FileTimes) (original : Int) :
    Except UpdateErr FileTimes :=
  if (audiometaPhase env a).1 then Except.ok w1
  else if ¬env.stat2Ok then Except.error UpdateErr.stat2
  else if ¬env.openOk then Except.error UpdateErr.openFile
  else if ¬env.readHeaderOk then Except.error UpdateErr.readHeader
  else if ¬env.readDataOk then Except.error UpdateErr.readData
  else if ¬env.createTempOk then Except.error UpdateErr.createTemp
  else if ¬env.writeTempOk then Except.error UpdateErr.writeTemp
  else if ¬env.parseFlacOk then Except.error UpdateErr.parseFlac
  else if coverGiven a ∧ ¬env.coverParseOk then Except.error UpdateErr.coverParse
  else if ¬env.saveTempOk then Except.error UpdateErr.saveTemp
  else if ¬env.finalWriteOk then Except.error UpdateErr.finalWrite
  else if ¬env.chtimesOk then Except.error UpdateErr.chtimes
  else Except.ok { mtime := original }

/-- `flacHandler.UpdateTags(filePath, ...)`: capture the original mtime, run
the audiometa closure (a successful audiometa save rewrites the file, so its
mtime becomes `now`), then either return early or run the direct path. -/
def flacUpdateTags (env : FlacTagEnv) (a : TagArgs) (w : FileTimes) :
    Except UpdateErr FileTimes :=
  if ¬env.statOk then Except.error UpdateErr.stat
  else
    flacAfterAudiometa env a
      (if (audiometaPhase env a).2 then { mtime := env.now } else w) w.mtime

/-- The environment of the counterexample: every external call succeeds, the
file has no year/track to preserve, and the clock reads 1. -/
def flacEnvA : FlacTagEnv :=
  { statOk := true, parseAMeta := some (0, 0), openTagOk := true, yearStr := "",
    saveTagOk := true, hasSaveMethod := true, saveFallbackOk := true, stat2Ok := true,
    openOk := true, readHeaderOk := true, readDataOk := true, createTempOk := true,
    writeTempOk := true, parseFlacOk := true, coverParseOk := true, saveTempOk := true,
    finalWriteOk := true, chtimesOk := true, now := 1 }

/-- All-nil update arguments. -/
def noArgs : TagArgs := ⟨none, none, none, none, none, none, none⟩

/-- C9 fails on the code for FLAC: with every external call succeeding and
all arguments nil, `flacHandler.UpdateTags` succeeds through the audiometa
early return, which skips the final `Chtimes`; the file's modification time
afterwards is the save time (1), not the original (0). -/
theorem c9_counterexample_flac_audiometa :
    flacUpdateTags flacEnvA noArgs { mtime := 0 } = Except.ok { mtime := 1 } ∧
    ({ mtime := 1 } : FileTimes).mtime ≠ ({ mtime := 0 } : FileTimes).mtime := by
  refine ⟨by decide, by decide⟩

set_option maxHeartbeats 1000000 in
theorem flacAfterAudiometa_mtime (env : FlacTagEnv) (a : TagArgs) (w1 : FileTimes)
    (original : Int) (w' : FileTimes)
    (hused : (audiometaPhase env a).1 = false)
    (h : flacAfterAudiometa env a w1 original = Except.ok w') :
    w'.mtime = original := by
  unfold flacAfterAudiometa at h
  rw [if_neg (show ¬((audiometaPhase env a).1 = true) by rw [hused]; simp)] at h
  split_ifs at h <;> first
    | exact Except.noConfusion h
    | (injection h with h2
       rw [← h2])

/-- C9 as amended: a successful `mp3Handler.UpdateTags` always restores the
original modification time, and a successful `flacHandler.UpdateTags`
restores it whenever the audiometa early-return path is not taken
(`audiometaUsed` false); when that path is taken the mtime is the save time
(see the counterexample). -/
theorem c9_update_restores_mtime_unless_audiometa :
    (∀ (env : Mp3TagEnv) (a : TagArgs) (w w' : FileTimes),
      mp3UpdateTags env a w = Except.ok w' → w'.mtime = w.mtime) ∧
    (∀ (env : FlacTagEnv) (a : TagArgs) (w w' : FileTimes),
      flacUpdateTags env a w = Except.ok w' → (audiometaPhase env a).1 = false →
        w'.mtime = w.mtime) := by
  constructor
  · intro env a w w' h
    rw [mp3UpdateTags, mp3AfterStat, mp3Chtimes] at h
    split_ifs at h <;> first
      | exact Except.noConfusion h
      | (injection h with h2
         rw [← h2])
  · intro env a w w' h hused
    rw [flacUpdateTags] at h
    by_cases hs : ¬env.statOk
    · rw [if_pos hs] at h
      exact Except.noConfusion h
    · rw [if_neg hs] at h
      exact flacAfterAudiometa_mtime env a _ w.mtime w' hused h

/-- The MP3 witness environment: every call succeeds, clock 9. -/
def mp3EnvA : Mp3TagEnv :=
  { statOk := true, openOk := true, coverParseOk := true,
    saveOk := true, chtimesOk := true, now := 9 }

/-- The FLAC witness environment: `OpenTag` fails, so the direct path runs. -/
def flacEnvB : FlacTagEnv := { flacEnvA with openTagOk := false, now := 9 }

theorem c9_update_restores_mtime_unless_audiometa_witness :
    ({ mtime := 7 } : FileTimes).mtime = ({ mtime := 7 } : FileTimes).mtime ∧
    ({ mtime := 3 } : FileTimes).mtime = ({ mtime := 3 } : FileTimes).mtime :=
  ⟨c9_update_restores_mtime_unless_audiometa.1 mp3EnvA noArgs { mtime := 7 } { mtime := 7 }
      (by decide),
    c9_update_restores_mtime_unless_audiometa.2 flacEnvB noArgs { mtime := 3 } { mtime := 3 }
      (by decide) (by decide)⟩

end AudioTag
